import Mathlib

/-!
# Worldview: artifact ingestion and buffer lifecycle, shallowly embedded

This file embeds the ingestion core of the `worldview` viewer
(`src/element.rs`, `src/artifact.rs`, `src/sequence/replace.rs`,
`src/inject/playback.rs`) and proves properties about it.

Modelling conventions:
* The PLY header (an external parser's output) is reduced to the part the
  code reads: an association list from element-group name to record count
  (`ply::Header::elements`, where only `.count` of each `ElementDef` is used;
  property lists are never consulted by the embedded functions).
* `wgpu::Device::create_buffer` returns a fresh GPU buffer handle.  Handle
  identity is modelled by a fresh-id counter threaded through allocation, so
  two distinct allocations never share an id.  Buffer contents, usage flags
  and labels are not modelled; the byte `size` requested is.
* Rust panics (`unwrap` on `None`) are modelled by `Except.error`; a normal
  return is `Except.ok`.
* The filesystem, the regex engine and the PLY parser are external
  collaborators: their results (`PathMatch`, `Option Header`) are inputs to
  the embedded functions, exactly at the point the Rust code consumes them.
* In-memory record strides are those of the `#[repr(C)]` structs in
  `src/model/`: `PlainVertex = [f32; 3]` is 12 bytes, `TriFacet = [i32; 3]`
  is 12 bytes, `model::Wireframe = [i32; 6]` is 24 bytes.
-/

deriving instance DecidableEq for Except

/-- `src/element.rs`: the two recognized schema elements. -/
inductive Element
  | Vertex
  | Facet
  deriving DecidableEq, Repr

/-- `Element::from(&String)`: only the exact names `"vertex"` and `"face"`
are recognized; everything else is ignored (`None`). -/
def Element.fromName (s : String) : Option Element :=
  if s = "vertex" then some Element.Vertex
  else if s = "face" then some Element.Facet
  else none

/-- `String::from(Element)` / `Element::to_string`. -/
def Element.toName : Element → String
  | Element.Vertex => "vertex"
  | Element.Facet => "face"

/-- `mem::size_of::<model::PlainVertex>()` (`[f32; 3]`). -/
def plainVertexSize : Nat := 12

/-- `mem::size_of::<model::TriFacet>()` (`[i32; 3]`). -/
def triFacetSize : Nat := 12

/-- `mem::size_of::<model::Wireframe>()` (`[i32; 6]`). -/
def wireframeFacetSize : Nat := 24

/-- The part of `ply::Header` the code reads: element-group name to record
count, in header order.  `ply_rs` keys this map by name, so lookups return
the first (unique) binding. -/
structure Header where
  elements : List (String × Nat)
  deriving DecidableEq, Repr

/-- First-match lookup in a name-count list (`header.elements.get(name)`,
reading only `.count`). -/
def lookupName : List (String × Nat) → String → Option Nat
  | [], _ => none
  | e :: t, n => if e.1 = n then some e.2 else lookupName t n

/-- `header.elements.get(&name).map(|e| e.count)`. -/
def Header.get (h : Header) (name : String) : Option Nat :=
  lookupName h.elements name

/-- Membership of `e` in the `HashSet<Element>` built in `Artifact::new`:
`header.elements.keys().filter_map(Element::from).collect()`. -/
def Header.hasElem (h : Header) (e : Element) : Bool :=
  h.elements.any (fun p => decide (Element.fromName p.1 = some e))

/-- `src/key.rs`: `Key { instance: Option<u32>, artifact: String }`.
The Rust field `instance` is spelled `inst` here (`instance` is reserved
in Lean). -/
structure Key where
  inst : Option Nat
  artifact : String
  deriving DecidableEq, Repr

/-- A `wgpu::Buffer` handle: its identity (`id`) and its byte capacity
(`size`, the value passed in the `BufferDescriptor`). -/
structure GpuBuffer where
  id : Nat
  size : Nat
  deriving DecidableEq, Repr

/-- A `wgpu::Device` as an allocator of fresh buffer handles. -/
structure Device where
  nextId : Nat
  deriving DecidableEq, Repr

/-- `device.create_buffer(&BufferDescriptor { size, .. })`: a fresh handle of
the requested size. -/
def createBuffer (device : Device) (size : Nat) : GpuBuffer × Device :=
  (⟨device.nextId, size⟩, ⟨device.nextId + 1⟩)

/-- `src/pipeline/point_cloud.rs` struct as constructed by `Artifact::new`
(`PointCloud { vertices }`; the draw-count and staging fields of the
pipeline revision are not part of that constructor). -/
structure PointCloud where
  vertices : GpuBuffer
  deriving DecidableEq, Repr

/-- `src/pipeline/wireframe.rs` struct as constructed by `Artifact::new`
(`Wireframe { vertices, indices }`). -/
structure Wireframe where
  vertices : GpuBuffer
  indices : GpuBuffer
  deriving DecidableEq, Repr

/-- `src/pipeline/mesh.rs` struct as referenced by `Artifact` (buffers
only; the private `num_facets` draw count is not read by the embedded
code). -/
structure Mesh where
  vertices : GpuBuffer
  indices : GpuBuffer
  deriving DecidableEq, Repr

/-- `src/artifact.rs`: `enum Artifact`. -/
inductive Artifact
  | PointCloud (p : PointCloud)
  | Wireframe (w : Wireframe)
  | Mesh (m : Mesh)
  deriving DecidableEq, Repr

/-- Discriminant test for the `Mesh` variant. -/
def Artifact.isMesh : Artifact → Bool
  | Artifact.Mesh _ => true
  | _ => false

/-- `Artifact::new(device, key, header)` from `src/artifact.rs` lines 45-98.

The recognized-element set `keys` is summarized by the two membership bits
(`HashSet` deduplicates, and `Element` has just two inhabitants, so
`keys.len()` is the number of bits set).  The branch for `keys.len() == 1`
unconditionally does `elements.get(&Element::Vertex).unwrap()`, which
panics when the single recognized element is `Facet`; that panic is the
`Except.error` arm.  Buffer sizes are literally the source's
`2 * element_size * count` (point cloud) and `4 * element_size * count`
(both wireframe buffers). -/
def Artifact.new (device : Device) (_key : Key) (header : Header) :
    Except String (Option Artifact × Device) :=
  let hasVertex := header.hasElem Element.Vertex
  let hasFacet := header.hasElem Element.Facet
  let keysLen := (if hasVertex then 1 else 0) + (if hasFacet then 1 else 0)
  if keysLen = 1 then
    match header.get (Element.toName Element.Vertex) with
    | none => Except.error "panicked: unwrap of the Vertex entry in the keys.len() == 1 branch"
    | some count =>
      let r := createBuffer device (2 * plainVertexSize * count)
      Except.ok (some (Artifact.PointCloud ⟨r.1⟩), r.2)
  else if keysLen = 2 then
    match header.get (Element.toName Element.Vertex),
          header.get (Element.toName Element.Facet) with
    | some vcount, some fcount =>
      let rv := createBuffer device (4 * plainVertexSize * vcount)
      let ri := createBuffer rv.2 (4 * triFacetSize * fcount)
      Except.ok (some (Artifact.Wireframe ⟨rv.1, ri.1⟩), ri.2)
    | _, _ => Except.error "panicked: unwrap while building the element map"
  else
    Except.ok (none, device)

/-- `Artifact::needs_resize` from `src/artifact.rs` lines 100-149.  The
body begins `return true; // This is buggy for now.`, so everything after
that first statement is dead code (modelled separately below). -/
def Artifact.needs_resize (_ : Artifact) (_ : Header) : Bool :=
  true

/-- The dead code sitting after `return true;` in `Artifact::needs_resize`
(unreachable in the program; embedded for reference).  Each `unwrap` on a
missing header element is an `Except.error`. -/
def Artifact.needsResizeUnreachable : Artifact → Header → Except String Bool
  | Artifact.PointCloud p, header =>
    match header.get (Element.toName Element.Vertex) with
    | none => Except.error "panicked: vertex unwrap"
    | some count => Except.ok (decide (p.vertices.size ≤ plainVertexSize * count))
  | Artifact.Wireframe w, header =>
    match header.get (Element.toName Element.Vertex),
          header.get (Element.toName Element.Facet) with
    | some vcount, some icount =>
      Except.ok (decide (w.vertices.size ≤ plainVertexSize * vcount) ||
                 decide (w.indices.size ≤ wireframeFacetSize * icount))
    | _, _ => Except.error "panicked: element unwrap"
  | Artifact.Mesh m, header =>
    match header.get (Element.toName Element.Vertex),
          header.get (Element.toName Element.Facet) with
    | some vcount, some icount =>
      Except.ok (decide (m.vertices.size ≤ plainVertexSize * vcount) ||
                 decide (m.indices.size ≤ 12 * icount))
    | _, _ => Except.error "panicked: element unwrap"

/-- `src/pipeline/wireframe.rs` struct `Wireframe` as its own constructor
`Wireframe::new` builds it, including the `num_lines` draw count. -/
structure PipelineWireframe where
  vertices : GpuBuffer
  indices : GpuBuffer
  num_lines : Nat
  deriving DecidableEq, Repr

/-- `Wireframe::new(device, header)` from `src/pipeline/wireframe.rs` lines
13-43: `None` unless both `vertex` and `face` groups are present; vertex
buffer sized `2 * element_size * count`, index buffer
`4 * size_of::<TriFacet>() * count`, `num_lines = count / 2`. -/
def PipelineWireframe.new (device : Device) (header : Header) :
    Option (PipelineWireframe × Device) :=
  match header.get (Element.toName Element.Vertex),
        header.get (Element.toName Element.Facet) with
  | some vcount, some fcount =>
    let rv := createBuffer device (2 * plainVertexSize * vcount)
    let ri := createBuffer rv.2 (4 * triFacetSize * fcount)
    some (⟨rv.1, ri.1, fcount / 2⟩, ri.2)
  | _, _ => none

/-- `HashMap::get` on the shared artifact table, modelled as an association
list with pairwise-distinct keys. -/
def lookupTable : List (Key × Artifact) → Key → Option Artifact
  | [], _ => none
  | e :: t, k => if e.1 = k then some e.2 else lookupTable t k

/-- `HashMap::remove(key)`: drops the binding for `key` (a no-op when the
key is absent). -/
def eraseTable : List (Key × Artifact) → Key → List (Key × Artifact)
  | [], _ => []
  | e :: t, k => if e.1 = k then eraseTable t k else e :: eraseTable t k

/-- `HashMap::insert(key, value)`: binds `key` to `value`, replacing any
previous binding. -/
def insertTable (t : List (Key × Artifact)) (k : Key) (a : Artifact) :
    List (Key × Artifact) :=
  (k, a) :: eraseTable t k

/-- `InjectionEvent` from `src/main.rs`, sent to the event-loop proxy. -/
inductive InjectionEvent
  | Add (key : Key)
  | Remove (key : Key)
  deriving DecidableEq, Repr

/-- The mutable state `Replace` acts on: the shared artifact table, the
`DEVICE` once-cell from `src/window.rs` (`none` before WGPU
initialization; `QUEUE` is ready exactly when `DEVICE` is, per the comment
in `inject`), and the stream of events sent to the consumer. -/
structure InjectState where
  artifacts : List (Key × Artifact)
  device : Option Device
  events : List InjectionEvent
  deriving DecidableEq, Repr

/-- The named captures of `PLY_RE`
(`(?<instance>[0-9]+)\.(?<artifact>.+)\.ply`) for a path that matched;
`Replace.add`/`remove` receive `none` when the regex did not match the
filename. -/
structure PathMatch where
  instCapture : String
  artifactCapture : String
  deriving DecidableEq, Repr

/-- `Replace::inject(key, path)` from `src/sequence/replace.rs` lines
39-96.  `parsed` is the result of `read_header` on the opened file (`none`
models the `Err` arm, which logs and returns).  `update_count` and
`write_buffer` touch only draw counts and buffer contents, neither of
which is part of the modelled state; `queue.submit([])` likewise.  A panic
inside `Artifact::new` propagates as `Except.error`. -/
def Replace.inject (s : InjectState) (key : Key) (parsed : Option Header) :
    Except String InjectState :=
  match parsed with
  | none => Except.ok s
  | some header =>
    -- "Remove buffers that are smaller than the new artifact."
    let needsResize :=
      match lookupTable s.artifacts key with
      | some artifact => artifact.needs_resize header
      | none => false
    let artifacts := if needsResize then eraseTable s.artifacts key else s.artifacts
    if (lookupTable artifacts key).isNone then
      match s.device with
      | none =>
        -- "Playback waiting for WGPU initialization": drop the event.
        Except.ok { s with artifacts := artifacts }
      | some device =>
        match Artifact.new device key header with
        | Except.error e => Except.error e
        | Except.ok (none, device') =>
          -- "Unknown artifact": log and return.
          Except.ok { s with artifacts := artifacts, device := some device' }
        | Except.ok (some artifact, device') =>
          Except.ok { artifacts := insertTable artifacts key artifact,
                      device := some device',
                      events := s.events ++ [InjectionEvent.Add key] }
    else
      Except.ok { s with artifacts := artifacts,
                         events := s.events ++ [InjectionEvent.Add key] }

/-- `Replace::add(path)` from `src/sequence/replace.rs` lines 104-132: on a
regex mismatch, log and return `None`; otherwise build the key with
`instance: None` (the instance capture feeds only the debug log), run
`inject`, and return `Some(key)` unconditionally. -/
def Replace.add (s : InjectState) (m : Option PathMatch) (parsed : Option Header) :
    Except String (InjectState × Option Key) :=
  match m with
  | none => Except.ok (s, none)
  | some pm =>
    let key : Key := { inst := none, artifact := pm.artifactCapture }
    match Replace.inject s key parsed with
    | Except.error e => Except.error e
    | Except.ok s' => Except.ok (s', some key)

/-- `Replace::remove(path)` from `src/sequence/replace.rs` lines 134-156:
on a regex mismatch, `None`; otherwise drop the key's binding (the file is
never opened), send `Remove(key)`, and return `Some(key)`. -/
def Replace.remove (s : InjectState) (m : Option PathMatch) :
    InjectState × Option Key :=
  match m with
  | none => (s, none)
  | some pm =>
    let key : Key := { inst := none, artifact := pm.artifactCapture }
    ({ s with artifacts := eraseTable s.artifacts key,
              events := s.events ++ [InjectionEvent.Remove key] }, some key)

/-- One sequencer operation, as driven by the producers. -/
inductive Op
  | add (m : Option PathMatch) (parsed : Option Header)
  | remove (m : Option PathMatch)

/-- Run a sequence of `add`/`remove` operations; a panic anywhere aborts
the run (the Rust process would unwind). -/
def runOps : InjectState → List Op → Except String InjectState
  | s, [] => Except.ok s
  | s, Op.add m parsed :: ops =>
    match Replace.add s m parsed with
    | Except.error e => Except.error e
    | Except.ok sr => runOps sr.1 ops
  | s, Op.remove m :: ops => runOps (Replace.remove s m).1 ops

/-- Observable producer events of the playback loop: an `add` call for a
path, or a sleep on the inter-frame interval. -/
inductive PlayEvent
  | inject (p : PathMatch)
  | sleep
  deriving DecidableEq, Repr

/-- One pass of the playback loop body from `src/inject/playback.rs` lines
22-59 over the filtered, sorted path list: each iteration resets the
interval, calls `sequencer.add(&path)` (the result is ignored — the guard
on `is_none` is commented out), then awaits `interval.tick()`.  The
cooperative-exit arm of the `select!` is not modelled; the trace is the
no-exit schedule. -/
def playbackPass : List PathMatch → List PlayEvent
  | [] => []
  | p :: rest => PlayEvent.inject p :: PlayEvent.sleep :: playbackPass rest

/-- Well-formedness of the artifact table: pairwise-distinct keys (a
`HashMap` invariant) and every key built with `instance: None` (what
`Replace` inserts). -/
def tableWF (t : List (Key × Artifact)) : Prop :=
  t.Pairwise (fun e1 e2 => e1.1 ≠ e2.1) ∧ ∀ e ∈ t, e.1.inst = none

/-! ## Helper lemmas -/

/-- `Element::from` maps a name to `Vertex` exactly when it is `"vertex"`. -/
theorem fromName_eq_some_vertex (s : String) :
    Element.fromName s = some Element.Vertex ↔ s = "vertex" := by
  simp only [Element.fromName]
  split_ifs <;> simp_all

/-- `Element::from` maps a name to `Facet` exactly when it is `"face"`. -/
theorem fromName_eq_some_facet (s : String) :
    Element.fromName s = some Element.Facet ↔ s = "face" := by
  simp only [Element.fromName]
  split_ifs <;> simp_all

/-- `Element::from` recognizes exactly the name `"vertex"` for `Vertex`, so
membership of `Vertex` in the recognized-element set coincides with a
successful lookup of `"vertex"` in the header. -/
theorem hasElem_vertex (h : Header) :
    h.hasElem Element.Vertex = (h.get "vertex").isSome := by
  rcases h with ⟨l⟩
  simp only [Header.hasElem, Header.get]
  induction l with
  | nil => rfl
  | cons e t ih =>
    rw [List.any_cons, lookupName]
    simp only [fromName_eq_some_vertex] at ih ⊢
    by_cases hv : e.1 = "vertex"
    · simp [hv]
    · simp [hv, ih]

/-- Likewise for `Facet` and the name `"face"`. -/
theorem hasElem_facet (h : Header) :
    h.hasElem Element.Facet = (h.get "face").isSome := by
  rcases h with ⟨l⟩
  simp only [Header.hasElem, Header.get]
  induction l with
  | nil => rfl
  | cons e t ih =>
    rw [List.any_cons, lookupName]
    simp only [fromName_eq_some_facet] at ih ⊢
    by_cases hf : e.1 = "face"
    · simp [hf]
    · simp [hf, ih]

theorem lookupTable_eraseTable (t : List (Key × Artifact)) (k : Key) :
    lookupTable (eraseTable t k) k = none := by
  induction t with
  | nil => rfl
  | cons e t ih =>
    simp only [eraseTable]
    by_cases h : e.1 = k <;> simp [h, lookupTable, ih]

theorem eraseTable_eraseTable (t : List (Key × Artifact)) (k : Key) :
    eraseTable (eraseTable t k) k = eraseTable t k := by
  induction t with
  | nil => rfl
  | cons e t ih =>
    simp only [eraseTable]
    by_cases h : e.1 = k <;> simp [h, eraseTable, ih]

theorem mem_eraseTable {t : List (Key × Artifact)} {k : Key} {e : Key × Artifact}
    (he : e ∈ eraseTable t k) : e ∈ t ∧ e.1 ≠ k := by
  induction t with
  | nil => cases he
  | cons a t ih =>
    simp only [eraseTable] at he
    by_cases h : a.1 = k
    · rw [if_pos h] at he
      exact ⟨List.mem_cons_of_mem _ (ih he).1, (ih he).2⟩
    · rw [if_neg h] at he
      rcases List.mem_cons.mp he with rfl | he'
      · exact ⟨List.mem_cons_self _ _, h⟩
      · exact ⟨List.mem_cons_of_mem _ (ih he').1, (ih he').2⟩

theorem tableWF_eraseTable {t : List (Key × Artifact)} (k : Key)
    (h : tableWF t) : tableWF (eraseTable t k) := by
  obtain ⟨hp, hi⟩ := h
  constructor
  · induction t with
    | nil => exact List.Pairwise.nil
    | cons a t ih =>
      rcases List.pairwise_cons.mp hp with ⟨ha, hp'⟩
      simp only [eraseTable]
      by_cases hak : a.1 = k
      · rw [if_pos hak]
        exact ih hp' (fun e he => hi e (List.mem_cons_of_mem _ he))
      · rw [if_neg hak]
        exact List.pairwise_cons.mpr
          ⟨fun e he => ha e (mem_eraseTable he).1,
           ih hp' (fun e he => hi e (List.mem_cons_of_mem _ he))⟩
  · exact fun e he => hi e (mem_eraseTable he).1

theorem tableWF_insertTable {t : List (Key × Artifact)} {k : Key} (a : Artifact)
    (hk : k.inst = none) (h : tableWF t) : tableWF (insertTable t k a) := by
  obtain ⟨hp, hi⟩ := tableWF_eraseTable k h
  refine ⟨List.pairwise_cons.mpr ⟨?_, hp⟩, ?_⟩
  · exact fun e he => fun hc => (mem_eraseTable he).2 hc.symm
  · intro e he
    rcases List.mem_cons.mp he with rfl | he'
    · exact hk
    · exact hi e he'

/-- In a well-formed table, two entries with the same `artifact` string are
the same entry: both keys carry `instance: None`, so the keys coincide,
and keys are pairwise distinct. -/
theorem tableWF_unique {t : List (Key × Artifact)} (h : tableWF t) :
    ∀ e1 ∈ t, ∀ e2 ∈ t, e1.1.artifact = e2.1.artifact → e1 = e2 := by
  obtain ⟨hp, hi⟩ := h
  induction t with
  | nil => intro e1 he1; cases he1
  | cons a t ih =>
    rcases List.pairwise_cons.mp hp with ⟨ha, hp'⟩
    intro e1 he1 e2 he2 hart
    have key_eq : e1.1 = e2.1 := by
      have h1 : e1.1.inst = none := hi e1 he1
      have h2 : e2.1.inst = none := hi e2 he2
      rcases e1 with ⟨⟨i1, a1⟩, v1⟩
      rcases e2 with ⟨⟨i2, a2⟩, v2⟩
      simp only at h1 h2 hart
      simp [h1, h2, hart]
    rcases List.mem_cons.mp he1 with rfl | he1'
    · rcases List.mem_cons.mp he2 with rfl | he2'
      · rfl
      · exact absurd key_eq (ha e2 he2')
    · rcases List.mem_cons.mp he2 with rfl | he2'
      · exact absurd key_eq.symm (ha e1 he1')
      · exact ih hp' (fun e he => hi e (List.mem_cons_of_mem _ he)) e1 he1' e2 he2' hart

/-- Every state `Replace::inject` can produce from a well-formed table with
a `instance: None` key is again well-formed. -/
theorem inject_tableWF {s : InjectState} {key : Key} {parsed : Option Header}
    {s' : InjectState} (hk : key.inst = none) (hwf : tableWF s.artifacts)
    (h : Replace.inject s key parsed = Except.ok s') : tableWF s'.artifacts := by
  rcases parsed with _ | header
  · simp only [Replace.inject] at h
    cases h
    exact hwf
  · simp only [Replace.inject] at h
    repeat' split at h
    all_goals cases h
    all_goals
      first
      | exact hwf
      | exact tableWF_eraseTable _ hwf
      | exact tableWF_insertTable _ hk hwf
      | exact tableWF_insertTable _ hk (tableWF_eraseTable _ hwf)

/-- `Replace::add` preserves table well-formedness (the key it builds always
has `instance: None`). -/
theorem add_tableWF {s : InjectState} {m : Option PathMatch}
    {parsed : Option Header} {sr : InjectState × Option Key}
    (hwf : tableWF s.artifacts)
    (h : Replace.add s m parsed = Except.ok sr) : tableWF sr.1.artifacts := by
  rcases m with _ | pm
  · simp only [Replace.add] at h
    cases h
    exact hwf
  · simp only [Replace.add] at h
    split at h
    · cases h
    · rename_i s1 heq
      cases h
      exact inject_tableWF rfl hwf heq

/-- `Replace::remove` preserves table well-formedness. -/
theorem remove_tableWF {s : InjectState} {m : Option PathMatch}
    (hwf : tableWF s.artifacts) : tableWF (Replace.remove s m).1.artifacts := by
  rcases m with _ | pm
  · exact hwf
  · exact tableWF_eraseTable _ hwf

/-- Any successful run of sequencer operations preserves table
well-formedness. -/
theorem runOps_tableWF {s : InjectState} {ops : List Op} {s' : InjectState}
    (hwf : tableWF s.artifacts) (h : runOps s ops = Except.ok s') :
    tableWF s'.artifacts := by
  induction ops generalizing s with
  | nil =>
    simp only [runOps] at h
    cases h
    exact hwf
  | cons op ops ih =>
    cases op with
    | add m parsed =>
      simp only [runOps] at h
      split at h
      · cases h
      · rename_i sr heq
        exact ih (add_tableWF hwf heq) h
    | remove m =>
      simp only [runOps] at h
      exact ih (remove_tableWF hwf) h

-- Sanity checks of the embedding on concrete headers.
example : Artifact.new ⟨0⟩ ⟨none, "a"⟩ ⟨[("vertex", 3)]⟩ =
    Except.ok (some (Artifact.PointCloud ⟨⟨0, 72⟩⟩), ⟨1⟩) := by decide
example : Artifact.new ⟨0⟩ ⟨none, "a"⟩ ⟨[("face", 3)]⟩ =
    Except.error "panicked: unwrap of the Vertex entry in the keys.len() == 1 branch" := by
  decide
example : Artifact.new ⟨0⟩ ⟨none, "a"⟩ ⟨[("vertex", 1), ("face", 1)]⟩ =
    Except.ok (some (Artifact.Wireframe ⟨⟨0, 48⟩, ⟨1, 48⟩⟩), ⟨2⟩) := by decide
example : Artifact.new ⟨0⟩ ⟨none, "a"⟩ ⟨[("pose", 7)]⟩ =
    Except.ok (none, ⟨0⟩) := by decide

/-- Evaluation of `Artifact::new` on a header whose only element group is
`vertex` with count `vc`: a point cloud whose vertex buffer doubles the
required bytes, allocated from the device's next fresh handle. -/
theorem Artifact.new_vertex_only (dev : Device) (k : Key) (vc : Nat) :
    Artifact.new dev k ⟨[("vertex", vc)]⟩ =
      Except.ok (some (Artifact.PointCloud ⟨⟨dev.nextId, 2 * plainVertexSize * vc⟩⟩),
                 ⟨dev.nextId + 1⟩) := rfl

/-- Evaluation of `Artifact::new` on a header with `vertex` and `face`
groups: a wireframe whose two buffers quadruple the required bytes. -/
theorem Artifact.new_vertex_face (dev : Device) (k : Key) (vc fc : Nat) :
    Artifact.new dev k ⟨[("vertex", vc), ("face", fc)]⟩ =
      Except.ok (some (Artifact.Wireframe ⟨⟨dev.nextId, 4 * plainVertexSize * vc⟩,
                                          ⟨dev.nextId + 1, 4 * triFacetSize * fc⟩⟩),
                 ⟨dev.nextId + 2⟩) := rfl

/-- `Replace::inject` of a zero-vertex-count header into any table with a
live device: the key's binding is (re)created with a zero-sized buffer and
the consumer is notified. -/
theorem inject_vertex_zero (t : List (Key × Artifact)) (d : Device)
    (evs : List InjectionEvent) (key : Key) :
    Replace.inject ⟨t, some d, evs⟩ key (some ⟨[("vertex", 0)]⟩) =
      Except.ok ⟨(key, Artifact.PointCloud ⟨⟨d.nextId, 2 * plainVertexSize * 0⟩⟩)
                   :: eraseTable t key,
                 some ⟨d.nextId + 1⟩,
                 evs ++ [InjectionEvent.Add key]⟩ := by
  simp only [Replace.inject]
  rcases hl : lookupTable t key with _ | a
  · simp [hl, Artifact.needs_resize, Artifact.new_vertex_only, insertTable]
  · simp [hl, Artifact.needs_resize, lookupTable_eraseTable, eraseTable_eraseTable,
          Artifact.new_vertex_only, insertTable]

/-! ## Claims -/

/-- C1: the claim states that when the required byte sizes fit within the
existing buffers' capacities, `needs_resize` reports `false`, the entry is
not removed and re-created, and the buffer handles are unchanged.  The
code hard-codes `return true;` (with the comment `This is buggy for
now.`), so even for an existing 24-byte point-cloud buffer and a header
requiring only 12 bytes, `needs_resize` answers `true` — although the dead
capacity check below the early return would answer `false` — and
re-ingestion removes the entry and re-creates it with a freshly allocated
buffer (handle id 5 instead of the previous 0). -/
theorem C1_needs_resize_hardcoded_true :
    Artifact.needs_resize (Artifact.PointCloud ⟨⟨0, 24⟩⟩) ⟨[("vertex", 1)]⟩ = true
    ∧ plainVertexSize * 1 ≤ 24
    ∧ Artifact.needsResizeUnreachable (Artifact.PointCloud ⟨⟨0, 24⟩⟩) ⟨[("vertex", 1)]⟩ =
        Except.ok false
    ∧ Replace.inject ⟨[(⟨none, "cloud"⟩, Artifact.PointCloud ⟨⟨0, 24⟩⟩)], some ⟨5⟩, []⟩
        ⟨none, "cloud"⟩ (some ⟨[("vertex", 1)]⟩) =
      Except.ok ⟨[(⟨none, "cloud"⟩, Artifact.PointCloud ⟨⟨5, 24⟩⟩)], some ⟨6⟩,
                 [InjectionEvent.Add ⟨none, "cloud"⟩]⟩ := by
  decide

/-- C2: the claim states that an ingestion attempt whose classification
matches no supported schema (or that finds the device not ready) leaves
the table exactly as before.  Because `needs_resize` is hard-coded `true`,
`inject` first removes the key's live entry and then aborts, so the
pre-existing entry is lost: shown both for an unrecognized element set
(`junk`) with a ready device, and for a well-formed header with the device
not yet initialized. -/
theorem C2_mismatch_loses_existing_entry :
    Replace.inject ⟨[(⟨none, "cloud"⟩, Artifact.PointCloud ⟨⟨0, 24⟩⟩)], some ⟨1⟩, []⟩
        ⟨none, "cloud"⟩ (some ⟨[("junk", 5)]⟩) =
      Except.ok ⟨[], some ⟨1⟩, []⟩
    ∧ Replace.inject ⟨[(⟨none, "cloud"⟩, Artifact.PointCloud ⟨⟨0, 24⟩⟩)], none, []⟩
        ⟨none, "cloud"⟩ (some ⟨[("vertex", 1)]⟩) =
      Except.ok ⟨[], none, []⟩ := by
  decide

/-- C3 counterexample: a header whose `vertex` element has count 0 is not
rejected — `add` returns the key and inserts a point-cloud artifact with a
zero-sized vertex buffer, contradicting the claim that `add` returns
`None` and leaves the table unchanged. -/
theorem C3_counterexample_zero_vertex_accepted :
    Replace.add ⟨[], some ⟨0⟩, []⟩ (some ⟨"3", "cloud"⟩) (some ⟨[("vertex", 0)]⟩) =
      Except.ok (⟨[(⟨none, "cloud"⟩, Artifact.PointCloud ⟨⟨0, 0⟩⟩)], some ⟨1⟩,
                  [InjectionEvent.Add ⟨none, "cloud"⟩]⟩, some ⟨none, "cloud"⟩)
    ∧ some (⟨none, "cloud"⟩ : Key) ≠ none := by
  decide

/-- C3 amended: for every table, live device and matched filename, `add` on
a header whose only element is `vertex` with count 0 returns `Some(key)`
and (re)binds the key to a `PointCloud` whose vertex buffer has byte size
`2 * 12 * 0 = 0`; no zero-vertex rejection exists in the code. -/
theorem C3_amended_zero_vertex_creates_artifact (t : List (Key × Artifact))
    (d : Device) (evs : List InjectionEvent) (pm : PathMatch) :
    Replace.add ⟨t, some d, evs⟩ (some pm) (some ⟨[("vertex", 0)]⟩) =
      Except.ok (⟨(⟨none, pm.artifactCapture⟩,
                   Artifact.PointCloud ⟨⟨d.nextId, 2 * plainVertexSize * 0⟩⟩)
                    :: eraseTable t ⟨none, pm.artifactCapture⟩,
                  some ⟨d.nextId + 1⟩,
                  evs ++ [InjectionEvent.Add ⟨none, pm.artifactCapture⟩]⟩,
                 some ⟨none, pm.artifactCapture⟩) := by
  simp only [Replace.add, inject_vertex_zero]

/-- C4: the claim states that classification returns `None` (without
panicking) on element sets matching no supported combination, the unwrap
of the `Vertex` entry being unreachable.  For a header containing a `face`
element but no `vertex` element, `keys.len() == 1` holds, the branch
unwraps the absent `Vertex` entry, and `Artifact::new` panics instead of
returning `None`. -/
theorem C4_face_only_header_panics :
    Artifact.new ⟨0⟩ ⟨none, "scan"⟩ ⟨[("face", 3)]⟩ =
      Except.error "panicked: unwrap of the Vertex entry in the keys.len() == 1 branch" := by
  decide

/-- C5: under any sequence of `add`/`remove` operations from a well-formed
state, every key in the table carries `instance: None` (the instance
capture never enters the key), and two entries sharing an `artifact`
string are the same entry — at most one `ArtifactVariant` per `artifact`
identity. -/
theorem C5_at_most_one_entry_per_artifact (s0 : InjectState) (ops : List Op)
    (s : InjectState) (h0 : tableWF s0.artifacts)
    (hrun : runOps s0 ops = Except.ok s) :
    (∀ e ∈ s.artifacts, e.1.inst = none)
    ∧ ∀ e1 ∈ s.artifacts, ∀ e2 ∈ s.artifacts,
        e1.1.artifact = e2.1.artifact → e1 = e2 := by
  have hwf := runOps_tableWF h0 hrun
  exact ⟨hwf.2, tableWF_unique hwf⟩

/-- C5 witness: two files with different instance captures but the same
artifact name, run from the empty table, leave exactly one entry. -/
theorem C5_witness :
    tableWF (⟨[], some ⟨0⟩, []⟩ : InjectState).artifacts
    ∧ runOps ⟨[], some ⟨0⟩, []⟩
        [Op.add (some ⟨"1", "cloud"⟩) (some ⟨[("vertex", 4)]⟩),
         Op.add (some ⟨"2", "cloud"⟩) (some ⟨[("vertex", 9)]⟩)] =
      Except.ok ⟨[(⟨none, "cloud"⟩, Artifact.PointCloud ⟨⟨1, 216⟩⟩)], some ⟨2⟩,
                 [InjectionEvent.Add ⟨none, "cloud"⟩, InjectionEvent.Add ⟨none, "cloud"⟩]⟩
    ∧ ((∀ e ∈ (⟨[(⟨none, "cloud"⟩, Artifact.PointCloud ⟨⟨1, 216⟩⟩)], some ⟨2⟩,
                 [InjectionEvent.Add ⟨none, "cloud"⟩, InjectionEvent.Add ⟨none, "cloud"⟩]⟩ :
                InjectState).artifacts, e.1.inst = none)
       ∧ ∀ e1 ∈ (⟨[(⟨none, "cloud"⟩, Artifact.PointCloud ⟨⟨1, 216⟩⟩)], some ⟨2⟩,
                 [InjectionEvent.Add ⟨none, "cloud"⟩, InjectionEvent.Add ⟨none, "cloud"⟩]⟩ :
                InjectState).artifacts,
           ∀ e2 ∈ (⟨[(⟨none, "cloud"⟩, Artifact.PointCloud ⟨⟨1, 216⟩⟩)], some ⟨2⟩,
                 [InjectionEvent.Add ⟨none, "cloud"⟩, InjectionEvent.Add ⟨none, "cloud"⟩]⟩ :
                InjectState).artifacts,
             e1.1.artifact = e2.1.artifact → e1 = e2) := by
  have h0 : tableWF (⟨[], some ⟨0⟩, []⟩ : InjectState).artifacts := by
    simp [tableWF]
  have hrun : runOps ⟨[], some ⟨0⟩, []⟩
      [Op.add (some ⟨"1", "cloud"⟩) (some ⟨[("vertex", 4)]⟩),
       Op.add (some ⟨"2", "cloud"⟩) (some ⟨[("vertex", 9)]⟩)] =
      Except.ok ⟨[(⟨none, "cloud"⟩, Artifact.PointCloud ⟨⟨1, 216⟩⟩)], some ⟨2⟩,
                 [InjectionEvent.Add ⟨none, "cloud"⟩,
                  InjectionEvent.Add ⟨none, "cloud"⟩]⟩ := by
    decide
  exact ⟨h0, hrun, C5_at_most_one_entry_per_artifact _ _ _ h0 hrun⟩

/-- C6 counterexample: the claim states every allocated buffer's byte size
is exactly twice the element count times the record stride.  For a
`vertex` + `face` header with one vertex record, `Artifact::new` allocates
the wireframe vertex buffer at `4 * 12 * 1 = 48` bytes, not
`2 * 12 * 1 = 24`. -/
theorem C6_counterexample_wireframe_headroom_not_two :
    Artifact.new ⟨0⟩ ⟨none, "scan"⟩ ⟨[("vertex", 1), ("face", 1)]⟩ =
      Except.ok (some (Artifact.Wireframe ⟨⟨0, 48⟩, ⟨1, 48⟩⟩), ⟨2⟩)
    ∧ 48 ≠ 2 * (plainVertexSize * 1) := by
  decide

/-- C6 amended: the headroom multiplier is 2 only for the point-cloud
vertex buffer; the wireframe path of `Artifact::new` quadruples both the
vertex and the index byte sizes, and the (unused) pipeline constructor
`Wireframe::new` doubles its vertex buffer but quadruples its index
buffer. -/
theorem C6_amended_buffer_sizes (dev : Device) (k : Key) (vc fc : Nat) :
    Artifact.new dev k ⟨[("vertex", vc)]⟩ =
      Except.ok (some (Artifact.PointCloud ⟨⟨dev.nextId, 2 * plainVertexSize * vc⟩⟩),
                 ⟨dev.nextId + 1⟩)
    ∧ Artifact.new dev k ⟨[("vertex", vc), ("face", fc)]⟩ =
      Except.ok (some (Artifact.Wireframe ⟨⟨dev.nextId, 4 * plainVertexSize * vc⟩,
                                          ⟨dev.nextId + 1, 4 * triFacetSize * fc⟩⟩),
                 ⟨dev.nextId + 2⟩)
    ∧ PipelineWireframe.new dev ⟨[("vertex", vc), ("face", fc)]⟩ =
      some (⟨⟨dev.nextId, 2 * plainVertexSize * vc⟩,
             ⟨dev.nextId + 1, 4 * triFacetSize * fc⟩, fc / 2⟩, ⟨dev.nextId + 2⟩) :=
  ⟨Artifact.new_vertex_only dev k vc, Artifact.new_vertex_face dev k vc fc, rfl⟩

/-- C7 counterexample: on a header parse failure, `add` does log, skip the
table and send no event — but it still returns `Some(key)` derived from
the filename, not `None` as the claim states. -/
theorem C7_counterexample_parse_failure_returns_key :
    Replace.add ⟨[], some ⟨0⟩, []⟩ (some ⟨"3", "cloud"⟩) none =
      Except.ok (⟨[], some ⟨0⟩, []⟩, some ⟨none, "cloud"⟩)
    ∧ some (⟨none, "cloud"⟩ : Key) ≠ (none : Option Key) := by
  decide

/-- C7 amended: for every state and matched filename whose header fails to
parse, `add` performs no table mutation and sends no event, does not
panic, and returns `Some` of the key derived from the filename (not
`None`). -/
theorem C7_amended_parse_failure_no_mutation (s : InjectState) (pm : PathMatch) :
    Replace.add s (some pm) none =
      Except.ok (s, some ⟨none, pm.artifactCapture⟩) := rfl

/-- C8 counterexample: two consecutive playback paths sharing the instance
capture `"7"` are not injected back-to-back — the active playback loop
(`src/inject/playback.rs`) awaits the interval tick after every `add`, so
a sleep separates the two injections. -/
theorem C8_counterexample_sleep_despite_same_instance :
    playbackPass [⟨"7", "a"⟩, ⟨"7", "b"⟩] =
      [PlayEvent.inject ⟨"7", "a"⟩, PlayEvent.sleep,
       PlayEvent.inject ⟨"7", "b"⟩, PlayEvent.sleep] := by
  decide

/-- C8 amended: the playback producer sleeps for the minimum inter-frame
delay after every injected path, regardless of whether the next file's
instance value differs: in the trace of a pass, position `2i` is the
injection of the `i`-th path and position `2i + 1` is always a sleep. -/
theorem C8_amended_sleep_after_every_path (paths : List PathMatch) (i : Nat)
    (hi : i < paths.length) :
    (playbackPass paths).get? (2 * i) = (paths.get? i).map PlayEvent.inject
    ∧ (playbackPass paths).get? (2 * i + 1) = some PlayEvent.sleep := by
  induction paths generalizing i with
  | nil => cases hi
  | cons p rest ih =>
    cases i with
    | zero => simp [playbackPass]
    | succ j =>
      have hj : j < rest.length := Nat.lt_of_succ_lt_succ hi
      have h2 : 2 * (j + 1) = 2 * j + 2 := by ring
      refine ⟨?_, ?_⟩
      · rw [h2]
        simpa [playbackPass] using (ih j hj).1
      · rw [h2]
        simpa [playbackPass] using (ih j hj).2

/-- C8 witness: the amended statement evaluated on the first of two
same-instance paths. -/
theorem C8_amended_witness :
    0 < ([⟨"7", "a"⟩, ⟨"7", "b"⟩] : List PathMatch).length
    ∧ ((playbackPass [⟨"7", "a"⟩, ⟨"7", "b"⟩]).get? (2 * 0) =
        (([⟨"7", "a"⟩, ⟨"7", "b"⟩] : List PathMatch).get? 0).map PlayEvent.inject
       ∧ (playbackPass [⟨"7", "a"⟩, ⟨"7", "b"⟩]).get? (2 * 0 + 1) =
        some PlayEvent.sleep) :=
  ⟨by decide, C8_amended_sleep_after_every_path [⟨"7", "a"⟩, ⟨"7", "b"⟩] 0 (by decide)⟩

/-- C9: `remove` is idempotent on the table — a second `remove` with the
same path leaves the table in the same state, returns the same key as the
first call (always `Some` of the derived key, also when nothing was bound),
and the key is absent afterwards. -/
theorem C9_remove_idempotent (s : InjectState) (pm : PathMatch) :
    (Replace.remove (Replace.remove s (some pm)).1 (some pm)).1.artifacts =
      (Replace.remove s (some pm)).1.artifacts
    ∧ (Replace.remove (Replace.remove s (some pm)).1 (some pm)).2 =
      (Replace.remove s (some pm)).2
    ∧ (Replace.remove s (some pm)).2 = some ⟨none, pm.artifactCapture⟩
    ∧ lookupTable (Replace.remove s (some pm)).1.artifacts
        ⟨none, pm.artifactCapture⟩ = none := by
  refine ⟨?_, rfl, rfl, ?_⟩
  · simp [Replace.remove, eraseTable_eraseTable]
  · simp [Replace.remove, lookupTable_eraseTable]

/-- C10: classification never produces the `Mesh` variant: every header
whose recognized element set contains both `Vertex` and `Facet` yields a
`Wireframe`, and no successful classification result is a `Mesh` — the
`Artifact::Mesh` constructor is unreachable from the ingestion path. -/
theorem C10_classification_never_mesh (dev : Device) (k : Key) (h : Header) :
    (h.hasElem Element.Vertex = true → h.hasElem Element.Facet = true →
      ∃ w dev2, Artifact.new dev k h = Except.ok (some (Artifact.Wireframe w), dev2))
    ∧ ∀ (a : Artifact) (dev2 : Device),
        Artifact.new dev k h = Except.ok (some a, dev2) → a.isMesh = false := by
  constructor
  · intro hv hf
    obtain ⟨vc, hvc⟩ : ∃ vc, h.get "vertex" = some vc := by
      rw [hasElem_vertex] at hv
      exact Option.isSome_iff_exists.mp hv
    obtain ⟨fc, hfc⟩ : ∃ fc, h.get "face" = some fc := by
      rw [hasElem_facet] at hf
      exact Option.isSome_iff_exists.mp hf
    refine ⟨⟨⟨dev.nextId, 4 * plainVertexSize * vc⟩,
             ⟨dev.nextId + 1, 4 * triFacetSize * fc⟩⟩, ⟨dev.nextId + 2⟩, ?_⟩
    simp [Artifact.new, hv, hf, Element.toName, hvc, hfc, createBuffer]
  · intro a dev2 hok
    simp only [Artifact.new] at hok
    repeat' split at hok
    all_goals cases hok
    all_goals rfl

/-- C10 witness: a concrete `vertex` + `face` header classifies as a
wireframe, and a concrete successful classification is not a mesh. -/
theorem C10_witness :
    ((⟨[("vertex", 2), ("face", 3)]⟩ : Header).hasElem Element.Vertex = true
     ∧ (⟨[("vertex", 2), ("face", 3)]⟩ : Header).hasElem Element.Facet = true
     ∧ ∃ w dev2, Artifact.new ⟨0⟩ ⟨none, "m"⟩ ⟨[("vertex", 2), ("face", 3)]⟩ =
         Except.ok (some (Artifact.Wireframe w), dev2))
    ∧ (Artifact.PointCloud ⟨⟨0, 48⟩⟩).isMesh = false := by
  have hv : (⟨[("vertex", 2), ("face", 3)]⟩ : Header).hasElem Element.Vertex = true := by
    decide
  have hf : (⟨[("vertex", 2), ("face", 3)]⟩ : Header).hasElem Element.Facet = true := by
    decide
  refine ⟨⟨hv, hf,
    (C10_classification_never_mesh ⟨0⟩ ⟨none, "m"⟩ ⟨[("vertex", 2), ("face", 3)]⟩).1 hv hf⟩, ?_⟩
  exact (C10_classification_never_mesh ⟨0⟩ ⟨none, "m"⟩ ⟨[("vertex", 2)]⟩).2
    (Artifact.PointCloud ⟨⟨0, 48⟩⟩) ⟨1⟩ (by decide)
